import Mathlib

/-!
Shallow embedding of the Binairo puzzle engine from `src/main.go`
(htmx-go-binairo).  Go's mutable `Grid [][]*Cell` is modelled as
`List (List Cell)`; in-place mutation becomes functional update, and the
solver's mutate-then-restore backtracking becomes a fuelled search that
returns `none` on failure (the Go code undoes every assignment on the
failure path, so failure leaves the grid equal to its input).
-/

namespace Binairo

/-- Cell mirrors the Go struct `Cell{Value *int; ReadOnly bool}`:
`Value = none` is the nil pointer (empty cell). -/
structure Cell where
  Value : Option Int
  ReadOnly : Bool
deriving DecidableEq, Repr

/-- Grid mirrors the Go type `Grid [][]*Cell`. -/
abbrev Grid : Type := List (List Cell)

/-- Reading `grid[i][j]`; Go panics out of range, but every in-spec caller
indexes inside the square, where this total version agrees with the source. -/
def getCell (g : Grid) (i j : Nat) : Cell :=
  (List.getD g i []).getD j { Value := none, ReadOnly := false }

/-- createGrid (main.go 133-142): a size×size grid of `&Cell{}`,
i.e. every cell empty and not read-only. -/
def createGrid (size : Nat) : Grid :=
  List.replicate size (List.replicate size { Value := none, ReadOnly := false })

/-- countOccurrences (main.go 245-253). -/
def countOccurrences (xs : List Int) (value : Int) : Nat :=
  xs.foldl (fun count v => if v = value then count + 1 else count) 0

/-- isSame (main.go 256-266): element-wise equality of two int slices. -/
def isSame (a b : List Int) : Bool :=
  a == b

/-- Go slice expression `xs[lo:hi]`. -/
def subslice (xs : List Int) (lo hi : Nat) : List Int :=
  (xs.drop lo).take (hi - lo)

/-- isValid (main.go 209-242): builds `rowValues`/`colValues` with sentinel
`-1` for empty cells, substitutes the candidate, then applies the count rule
and the four window checks (`col-2..col`, `col..col+2`, `row-2..row`,
`row..row+2`) exactly as the source does. -/
def isValid (g : Grid) (row col : Nat) (value : Int) : Bool :=
  let size := List.length g
  let rowValues := (List.range size).map fun j =>
    if j = col then value else
      match (getCell g row j).Value with
      | some v => v
      | none => -1
  let colValues := (List.range size).map fun i =>
    if i = row then value else
      match (getCell g i col).Value with
      | some v => v
      | none => -1
  if countOccurrences rowValues value > size / 2 ||
      countOccurrences colValues value > size / 2 then
    false
  else if (decide (col > 1) && isSame (subslice rowValues (col - 2) (col + 1)) [value, value, value]) ||
      (decide (col < size - 2) && isSame (subslice rowValues col (col + 3)) [value, value, value]) ||
      (decide (row > 1) && isSame (subslice colValues (row - 2) (row + 1)) [value, value, value]) ||
      (decide (row < size - 2) && isSame (subslice colValues row (row + 3)) [value, value, value]) then
    false
  else
    true

/-- validateBinairo (main.go 197-206): false if any cell is nil or fails
`isValid` for its own value. -/
def validateBinairo (g : Grid) (size : Nat) : Bool :=
  (List.range size).all fun i =>
    (List.range size).all fun j =>
      match (getCell g i j).Value with
      | none => false
      | some v => isValid g i j v

/-- Row-major scan for the first empty cell, as in the solver's nested loops
(main.go 174-176). -/
def firstEmpty (g : Grid) : Option (Nat × Nat) :=
  let size := List.length g
  (List.range size).findSome? fun i =>
    ((List.range size).find? fun j => ((getCell g i j).Value).isNone).map fun j => (i, j)

/-- Functional counterpart of `grid[i][j].Value = v` (only `Value` is written,
`ReadOnly` is untouched, main.go 179/183). -/
def setCellValue (g : Grid) (i j : Nat) (v : Option Int) : Grid :=
  List.set g i ((List.getD g i []).set j { getCell g i j with Value := v })

/-- The recursive closure `solve` of solveBinairo (main.go 172-191): at the
first empty cell try 0 then 1, keep an accepted value when the recursion
succeeds, undo it otherwise; success once no empty cell remains.  The Go
version mutates and restores; here failure returns `none` and success returns
the filled grid, with fuel bounding the recursion depth (one unit per
placement, so `size*size` units always suffice). -/
def solveAux : Nat → Grid → Option Grid
  | 0, g => if (firstEmpty g).isNone then some g else none
  | fuel + 1, g =>
    match firstEmpty g with
    | none => some g
    | some (i, j) =>
      match (if isValid g i j 0 then solveAux fuel (setCellValue g i j (some 0)) else none) with
      | some g2 => some g2
      | none =>
        if isValid g i j 1 then solveAux fuel (setCellValue g i j (some 1)) else none

/-- solveBinairo (main.go 170-194): runs the search and returns the grid —
the solved one on success, the untouched input on failure (every assignment
is undone on the Go failure path). -/
def solveBinairo (g : Grid) : Grid :=
  (solveAux (List.length g * List.length g) g).getD g

/-- Full grid: every cell of the size×size square holds a value. -/
def isFull (g : Grid) : Bool :=
  (List.range (List.length g)).all fun i =>
    (List.range (List.length g)).all fun j => ((getCell g i j).Value).isSome

/-- Number of empty cells of the size×size square. -/
def countEmpty (g : Grid) : Nat :=
  ((List.range (List.length g)).map fun i =>
    ((List.range (List.length g)).filter fun j => ((getCell g i j).Value).isNone).length).sum

/-- Functional counterpart of the removal body in generateHandler
(main.go 58-59): `grid[i][j].Value = nil; grid[i][j].ReadOnly = false`. -/
def clearCell (g : Grid) (i j : Nat) : Grid :=
  List.set g i ((List.getD g i []).set j { Value := none, ReadOnly := false })

/-- The removal loop of generateHandler (main.go 55-62).  The stream of
`rand.Intn` coordinate draws is made explicit as a list consumed left to
right: a draw hitting a filled cell empties it and decrements the counter, a
draw hitting an already-empty cell is skipped (the Go loop body's nil check).
The Go loop spins until the counter reaches zero; exhausting the modelled
draw list returns the grid as it stands. -/
def removeCells : Grid → List (Nat × Nat) → Nat → Grid
  | g, _, 0 => g
  | g, [], _ + 1 => g
  | g, (i, j) :: rest, n + 1 =>
    if ((getCell g i j).Value).isSome then removeCells (clearCell g i j) rest n
    else removeCells g rest (n + 1)

/-- generateHandler core (main.go 49-62): solve an empty grid, then empty
`(size*size)/2` cells along the draw stream. -/
def generateGrid (size : Nat) (draws : List (Nat × Nat)) : Grid :=
  removeCells (solveBinairo (createGrid size)) draws (size * size / 2)

/-- generateHandler boundary (main.go 41-47): a non-numeric or non-positive
size yields the "Invalid grid size" error before any generation. -/
def generateHandler (sizeInput : Option Int) (draws : List (Nat × Nat)) : Except String Grid :=
  match sizeInput with
  | none => Except.error "Invalid grid size"
  | some size =>
    if size ≤ 0 then Except.error "Invalid grid size"
    else Except.ok (generateGrid size.toNat draws)

/-- Abstraction of one form field's content as seen through `strconv.Atoi`
(main.go 156-163): the empty string, a numeric string carrying some integer,
or a non-numeric string that makes Atoi fail. -/
inductive CellInput where
  | empty : CellInput
  | numeric : Int → CellInput
  | malformed : CellInput
deriving DecidableEq

/-- Inner column loop of parseGridFromRequest (main.go 154-164) over one row:
empty fields leave the cell nil, numeric fields store the parsed integer
unchecked, a non-numeric field aborts with "invalid cell value". -/
def parseRowAux (f : Nat → CellInput) : List Nat → Except String (List Cell)
  | [] => Except.ok []
  | j :: js =>
    match f j with
    | CellInput.malformed => Except.error "invalid cell value"
    | CellInput.empty =>
      match parseRowAux f js with
      | Except.error msg => Except.error msg
      | Except.ok cs => Except.ok ({ Value := none, ReadOnly := false } :: cs)
    | CellInput.numeric v =>
      match parseRowAux f js with
      | Except.error msg => Except.error msg
      | Except.ok cs => Except.ok ({ Value := some v, ReadOnly := false } :: cs)

/-- Outer row loop of parseGridFromRequest (main.go 153-165). -/
def parseRows (cells : Nat → Nat → CellInput) (n : Nat) : List Nat → Except String Grid
  | [] => Except.ok []
  | i :: is =>
    match parseRowAux (cells i) (List.range n) with
    | Except.error msg => Except.error msg
    | Except.ok row =>
      match parseRows cells n is with
      | Except.error msg => Except.error msg
      | Except.ok rows => Except.ok (row :: rows)

/-- parseGridFromRequest (main.go 145-167): size must parse and be positive,
then the size×size cell fields are read in row-major order. -/
def parseGridFromRequest (sizeInput : Option Int) (cells : Nat → Nat → CellInput) :
    Except String (Grid × Int) :=
  match sizeInput with
  | none => Except.error "invalid grid size"
  | some size =>
    if size ≤ 0 then Except.error "invalid grid size"
    else
      match parseRows cells size.toNat (List.range size.toNat) with
      | Except.error msg => Except.error msg
      | Except.ok g => Except.ok (g, size)

/-- solveHandler (main.go 102-112): any parse error becomes the
"Invalid grid data" response; otherwise the grid is solved and rendered. -/
def solveHandler (sizeInput : Option Int) (cells : Nat → Nat → CellInput) :
    Except String Grid :=
  match parseGridFromRequest sizeInput cells with
  | Except.error _ => Except.error "Invalid grid data"
  | Except.ok (g, _) => Except.ok (solveBinairo g)

/-- validateHandler (main.go 115-128): parse errors become "Invalid grid
data"; otherwise the body is exactly "valid" or "invalid" depending on
validateBinairo — there is no third outcome. -/
def validateHandler (sizeInput : Option Int) (cells : Nat → Nat → CellInput) :
    Except String String :=
  match parseGridFromRequest sizeInput cells with
  | Except.error _ => Except.error "Invalid grid data"
  | Except.ok (g, size) =>
    Except.ok (if validateBinairo g size.toNat then "valid" else "invalid")

/-- Toggle step of toggleCellHandler (main.go 85-93): nil becomes 0, 0
becomes 1, anything else becomes nil. -/
def toggleValue : Option Int → Option Int
  | none => some 0
  | some v => if v = 0 then some 1 else none

/-- Cell-level toggle of toggleCellHandler (main.go 80-93): read-only cells
are left untouched, otherwise the value cycles. -/
def toggleCell (c : Cell) : Cell :=
  if c.ReadOnly then c else { c with Value := toggleValue c.Value }

/-- Observable outcome of toggleCellHandler: a rendered cell, the silent
early return for a read-only cell, or a runtime fault (Go panics when `make`
gets a negative length or when `grid[row][col]` indexes out of range). -/
inductive ToggleOutcome where
  | fault : ToggleOutcome
  | noOp : ToggleOutcome
  | rendered : Cell → ToggleOutcome
deriving DecidableEq

/-- toggleCellHandler (main.go 69-98): row, col and gridSize are parsed with
errors discarded (Go's Atoi yields 0 on failure, so a malformed field arrives
here as 0); a fresh blank grid of the given size is built and `grid[row][col]`
is read with no bounds check, so a negative size or an out-of-range index is
the fault branch. -/
def toggleCellHandler (row col size : Int) : ToggleOutcome :=
  if size < 0 then ToggleOutcome.fault
  else if 0 ≤ row ∧ row < size ∧ 0 ≤ col ∧ col < size then
    let c := getCell (createGrid size.toNat) row.toNat col.toNat
    if c.ReadOnly then ToggleOutcome.noOp else ToggleOutcome.rendered (toggleCell c)
  else ToggleOutcome.fault

/-- Three cells holding the same value. -/
def tripleAt (a b c : Cell) : Bool :=
  match a.Value with
  | some v => (b.Value == some v) && (c.Value == some v)
  | none => false

/-- Spec-side run detector: some row or column of the grid contains three
consecutive cells with one equal value. -/
def hasThreeRun (g : Grid) : Bool :=
  let n := List.length g
  ((List.range n).any fun i => (List.range n).any fun j =>
    decide (j + 2 < n) && tripleAt (getCell g i j) (getCell g i (j + 1)) (getCell g i (j + 2)))
  || ((List.range n).any fun j => (List.range n).any fun i =>
    decide (i + 2 < n) && tripleAt (getCell g i j) (getCell g (i + 1) j) (getCell g (i + 2) j))

/-- Modelled from the spec's run policy for the checker: after substituting
`value` at `(row, col)`, some in-bounds window of three consecutive cells
containing that position (as first, middle, or last element, row-wise or
column-wise) is entirely equal to `value`.  Stated from the spec's words to
compare against the source's `isValid`. -/
def specRunViolation (g : Grid) (row col : Nat) (value : Int) : Bool :=
  let n := List.length g
  let sub : Nat → Nat → Option Int := fun i j =>
    if i = row ∧ j = col then some value else (getCell g i j).Value
  ((List.range n).any fun c =>
    decide (c + 2 < n) && decide (c ≤ col) && decide (col ≤ c + 2) &&
    (sub row c == some value) && (sub row (c + 1) == some value) && (sub row (c + 2) == some value))
  || ((List.range n).any fun r =>
    decide (r + 2 < n) && decide (r ≤ row) && decide (row ≤ r + 2) &&
    (sub r col == some value) && (sub (r + 1) col == some value) && (sub (r + 2) col == some value))

/-! Concrete grids and request inputs used by the theorems below. -/

/-- An empty editable cell, as produced by `createGrid`. -/
def blankCell : Cell := { Value := none, ReadOnly := false }

/-- A cell holding 0, not read-only. -/
def cell0 : Cell := { Value := some 0, ReadOnly := false }

/-- A cell holding 1, not read-only. -/
def cell1 : Cell := { Value := some 1, ReadOnly := false }

/-- Grid of side 6 whose only filled cells are 1 at (0,0) and (0,2). -/
def gridG1 : Grid :=
  [[cell1, blankCell, cell1, blankCell, blankCell, blankCell],
   [blankCell, blankCell, blankCell, blankCell, blankCell, blankCell],
   [blankCell, blankCell, blankCell, blankCell, blankCell, blankCell],
   [blankCell, blankCell, blankCell, blankCell, blankCell, blankCell],
   [blankCell, blankCell, blankCell, blankCell, blankCell, blankCell],
   [blankCell, blankCell, blankCell, blankCell, blankCell, blankCell]]

/-- Grid of side 4 whose first row starts `[1, 1, _, _]`. -/
def gridG4 : Grid :=
  [[cell1, cell1, blankCell, blankCell],
   [blankCell, blankCell, blankCell, blankCell],
   [blankCell, blankCell, blankCell, blankCell],
   [blankCell, blankCell, blankCell, blankCell]]

/-- Grid of side 6 with a single empty cell at (0,1); its row 0 reads
`[1, _, 1, 0, 0, 0]`, so 0 at (0,1) is count-rejected and 1 is the only
candidate the checker accepts, although it completes the run `1,1,1`. -/
def gridG6 : Grid :=
  [[cell1, blankCell, cell1, cell0, cell0, cell0],
   [cell0, cell0, cell0, cell0, cell0, cell0],
   [cell0, cell0, cell0, cell0, cell0, cell0],
   [cell0, cell1, cell0, cell0, cell0, cell0],
   [cell0, cell1, cell0, cell0, cell0, cell0],
   [cell0, cell0, cell0, cell0, cell0, cell0]]

/-- The canonical solved 4×4 grid reached from the empty grid by the
row-major, 0-before-1 search. -/
def canonical4 : Grid :=
  [[cell0, cell0, cell1, cell1],
   [cell0, cell0, cell1, cell1],
   [cell1, cell1, cell0, cell0],
   [cell1, cell1, cell0, cell0]]

/-- Draw stream for the generation run: the second draw repeats the already
emptied (0,0) and must be skipped, so nine draws empty eight cells. -/
def drawsG : List (Nat × Nat) :=
  [(0, 0), (0, 0), (0, 1), (0, 2), (0, 3), (1, 0), (1, 1), (1, 2), (1, 3)]

/-- The puzzle produced for size 4 along `drawsG`. -/
def puzzleG : Grid := generateGrid 4 drawsG

/-- Request cells for a 2×2 grid whose (0,0) field is empty and whose other
fields carry 0. -/
def cellsIncomplete : Nat → Nat → CellInput :=
  fun i j => if i = 0 ∧ j = 0 then CellInput.empty else CellInput.numeric 0

/-- Request cells for an all-zero (hence rule-violating) grid. -/
def cellsViolating : Nat → Nat → CellInput :=
  fun _ _ => CellInput.numeric 0

/-- Request cells whose every field carries the out-of-domain number 2. -/
def cellsOutOfDomain : Nat → Nat → CellInput :=
  fun _ _ => CellInput.numeric 2

/-- Request cells whose every field is non-numeric. -/
def cellsMalformed : Nat → Nat → CellInput :=
  fun _ _ => CellInput.malformed

/-- Request cells whose every field is empty. -/
def cellsBlank : Nat → Nat → CellInput :=
  fun _ _ => CellInput.empty

/-! Helper lemmas. -/

/-- The only error message `parseRowAux` can produce is "invalid cell value". -/
theorem parseRowAux_error_msg (f : Nat → CellInput) :
    ∀ (js : List Nat) (msg : String),
      parseRowAux f js = Except.error msg → msg = "invalid cell value" := by
  intro js
  induction js with
  | nil =>
    intro msg hmsg
    simp [parseRowAux] at hmsg
  | cons a as ih =>
    intro msg hmsg
    unfold parseRowAux at hmsg
    cases hfa : f a with
    | malformed =>
      rw [hfa] at hmsg
      simp at hmsg
      exact hmsg.symm
    | empty =>
      rw [hfa] at hmsg
      cases hrec : parseRowAux f as with
      | error msg2 =>
        rw [hrec] at hmsg
        simp at hmsg
        exact hmsg ▸ ih msg2 hrec
      | ok cs =>
        rw [hrec] at hmsg
        simp at hmsg
    | numeric v =>
      rw [hfa] at hmsg
      cases hrec : parseRowAux f as with
      | error msg2 =>
        rw [hrec] at hmsg
        simp at hmsg
        exact hmsg ▸ ih msg2 hrec
      | ok cs =>
        rw [hrec] at hmsg
        simp at hmsg

/-- A non-numeric field anywhere in the scanned columns aborts the row parse
with the "invalid cell value" error. -/
theorem parseRowAux_malformed (f : Nat → CellInput) (js : List Nat) (j : Nat)
    (hj : j ∈ js) (hf : f j = CellInput.malformed) :
    parseRowAux f js = Except.error "invalid cell value" := by
  induction js with
  | nil => cases hj
  | cons a as ih =>
    rcases List.mem_cons.mp hj with rfl | hmem
    · unfold parseRowAux
      rw [hf]
    · have hrec := ih hmem
      unfold parseRowAux
      cases hfa : f a with
      | malformed => rfl
      | empty => rw [hrec]
      | numeric v => rw [hrec]

/-- A non-numeric field anywhere in the scanned rows aborts the grid parse
with the "invalid cell value" error. -/
theorem parseRows_malformed (cells : Nat → Nat → CellInput) (n : Nat)
    (is : List Nat) (i j : Nat) (hi : i ∈ is) (hj : j ∈ List.range n)
    (hm : cells i j = CellInput.malformed) :
    parseRows cells n is = Except.error "invalid cell value" := by
  induction is with
  | nil => cases hi
  | cons a as ih =>
    rcases List.mem_cons.mp hi with rfl | hmem
    · unfold parseRows
      rw [parseRowAux_malformed (cells i) (List.range n) j hj hm]
    · have hrec := ih hmem
      unfold parseRows
      cases hrow : parseRowAux (cells a) (List.range n) with
      | error msg => rw [parseRowAux_error_msg (cells a) (List.range n) msg hrow]
      | ok row => rw [hrec]

/-- When no cell is empty the search succeeds at once with the grid itself. -/
theorem solveAux_of_no_empty (fuel : Nat) (g : Grid) (hg : firstEmpty g = none) :
    solveAux fuel g = some g := by
  cases fuel with
  | zero => simp [solveAux, hg]
  | succ n => simp [solveAux, hg]

/-- A full grid has no first empty cell. -/
theorem firstEmpty_eq_none_of_isFull (g : Grid) (h : isFull g = true) :
    firstEmpty g = none := by
  unfold isFull at h
  rw [List.all_eq_true] at h
  unfold firstEmpty
  rw [List.findSome?_eq_none_iff]
  intro i hi
  have hrow := h i hi
  rw [List.all_eq_true] at hrow
  rw [Option.map_eq_none', List.find?_eq_none]
  intro j hj
  have hc := hrow j hj
  cases hv : (getCell g i j).Value with
  | none => rw [hv] at hc; simp at hc
  | some v => simp

/-! Claim theorems. -/

/-- C1: the checker is claimed to reject every placement completing an
in-bounds window of three equal values that contains the candidate as first,
middle, or last element.  The code only checks the windows whose first or
last element is the candidate, so on the 6×6 grid with ones at (0,0) and
(0,2) placing 1 at (0,1) completes the middle-position window over columns
0..2 — the spec-side detector flags it — yet `isValid` returns true.  The
claim's concrete 4×4 case (1 at (0,2) in a row starting `[1,1,_,_]`) is
rejected as stated. -/
theorem isValid_misses_middle_window :
    specRunViolation gridG1 0 1 1 = true ∧ isValid gridG1 0 1 1 = true ∧
    isValid gridG4 0 2 1 = false := by
  decide

/-- C2 counterexample: a 2×2 grid with an empty (0,0) field makes the
validate operation answer the body "invalid" — not "incomplete" — which is
exactly the body produced for a fully filled all-zero grid that violates the
rules, so the incomplete outcome is not distinguishable from the invalid
one. -/
theorem validate_incomplete_not_distinguishable :
    validateHandler (some 2) cellsIncomplete = Except.ok "invalid" ∧
    validateHandler (some 2) cellsViolating = Except.ok "invalid" := by
  constructor
  · rfl
  · rfl

/-- C2 amended: validation is two-way; any grid with an empty cell inside the
scanned size×size square is reported with the same "invalid" outcome as a
constraint violation (validateBinairo returns false on the nil cell and
validateHandler prints "invalid" whenever it does). -/
theorem validateBinairo_empty_cell_invalid (g : Grid) (size i j : Nat)
    (hi : i < size) (hj : j < size) (h : (getCell g i j).Value = none) :
    validateBinairo g size = false ∧
    (if validateBinairo g size then "valid" else "invalid") = "invalid" := by
  have hfalse : validateBinairo g size = false := by
    rw [Bool.eq_false_iff]
    intro hb
    unfold validateBinairo at hb
    rw [List.all_eq_true] at hb
    have hrow := hb i (List.mem_range.mpr hi)
    rw [List.all_eq_true] at hrow
    have hcell := hrow j (List.mem_range.mpr hj)
    rw [h] at hcell
    simp at hcell
  exact ⟨hfalse, by rw [hfalse]; simp⟩

/-- C2 witness: the 1×1 grid whose only cell is empty validates to false and
is reported "invalid". -/
theorem validateBinairo_empty_cell_invalid_witness :
    validateBinairo [[blankCell]] 1 = false ∧
    (if validateBinairo [[blankCell]] 1 then "valid" else "invalid") = "invalid" :=
  validateBinairo_empty_cell_invalid [[blankCell]] 1 0 0
    (by decide) (by decide) rfl

/-- C3: generation for size 4 along a nine-draw stream (whose second draw
repeats the already-emptied (0,0) and is skipped) empties exactly eight
cells, as claimed, but every cell of the resulting puzzle — the eight
remaining filled ones included — carries `ReadOnly = false`: nothing in the
code ever sets the fixed flag, against the claim that remaining filled cells
end with `fixed = true`. -/
theorem generate_leaves_every_cell_editable :
    countEmpty puzzleG = 8 ∧ (getCell puzzleG 2 0).Value = some 1 ∧
    (List.all puzzleG fun row => row.all fun c => !c.ReadOnly) = true := by
  decide

/-- C4 counterexample: a 1×1 solve request whose cell field carries the
numeric but out-of-domain value 2 is not rejected — the parse succeeds, the
2 is stored in the grid, and the solve operation proceeds to answer with
that grid. -/
theorem parse_accepts_out_of_domain_value :
    parseGridFromRequest (some 1) cellsOutOfDomain =
      Except.ok ([[{ Value := some 2, ReadOnly := false }]], 1) ∧
    solveHandler (some 1) cellsOutOfDomain =
      Except.ok [[{ Value := some 2, ReadOnly := false }]] := by
  constructor
  · rfl
  · rfl

/-- C4 amended: only non-numeric cell content makes the solve request fail
with the invalid-cell-value error before solving; a request of positive size
whose scanned square holds a malformed field is rejected with exactly that
error. -/
theorem parseGrid_rejects_non_numeric (size : Int) (cells : Nat → Nat → CellInput)
    (i j : Nat) (hs : 0 < size) (hi : i < size.toNat) (hj : j < size.toNat)
    (hm : cells i j = CellInput.malformed) :
    parseGridFromRequest (some size) cells = Except.error "invalid cell value" := by
  have h1 : ¬ size ≤ 0 := not_le.mpr hs
  have h2 := parseRows_malformed cells size.toNat (List.range size.toNat) i j
    (List.mem_range.mpr hi) (List.mem_range.mpr hj) hm
  unfold parseGridFromRequest
  dsimp only
  rw [if_neg h1, h2]

/-- C4 witness: a 1×1 request whose field is non-numeric is rejected with the
invalid-cell-value error. -/
theorem parseGrid_rejects_non_numeric_witness :
    parseGridFromRequest (some 1) cellsMalformed = Except.error "invalid cell value" :=
  parseGrid_rejects_non_numeric 1 cellsMalformed 0 0
    (by decide) (by decide) (by decide) rfl

/-- C5 counterexample: a toggle request with size -1 does not produce an
InvalidSize error; the handler builds the grid and faults (Go panics in
`make`), so not every entry point reports InvalidSize for non-positive
sizes. -/
theorem toggle_negative_size_faults :
    toggleCellHandler 0 0 (-1) = ToggleOutcome.fault := by
  decide

/-- C5 amended: for size ≤ 0 the generate, solve and validate entry points
report their invalid-size error, while toggleCell — which never validates
its inputs — faults on the grid access instead of reporting anything. -/
theorem invalid_size_reported_except_toggle (size : Int)
    (draws : List (Nat × Nat)) (cells : Nat → Nat → CellInput)
    (row col : Int) (h : size ≤ 0) :
    generateHandler (some size) draws = Except.error "Invalid grid size" ∧
    solveHandler (some size) cells = Except.error "Invalid grid data" ∧
    validateHandler (some size) cells = Except.error "Invalid grid data" ∧
    toggleCellHandler row col size = ToggleOutcome.fault := by
  have hparse : parseGridFromRequest (some size) cells = Except.error "invalid grid size" := by
    unfold parseGridFromRequest
    dsimp only
    rw [if_pos h]
  refine ⟨?_, ?_, ?_, ?_⟩
  · unfold generateHandler
    dsimp only
    rw [if_pos h]
  · unfold solveHandler
    rw [hparse]
  · unfold validateHandler
    rw [hparse]
  · unfold toggleCellHandler
    rcases lt_or_eq_of_le h with hlt | heq
    · rw [if_pos hlt]
    · subst heq
      have h0 : ¬ ((0 : Int) < 0) := by omega
      have h2 : ¬ (0 ≤ row ∧ row < (0 : Int) ∧ 0 ≤ col ∧ col < 0) := by omega
      rw [if_neg h0, if_neg h2]

/-- C5 witness: at size 0 with blank inputs, the three parsing entry points
report their errors and the toggle entry point faults. -/
theorem invalid_size_reported_except_toggle_witness :
    generateHandler (some 0) [] = Except.error "Invalid grid size" ∧
    solveHandler (some 0) cellsBlank = Except.error "Invalid grid data" ∧
    validateHandler (some 0) cellsBlank = Except.error "Invalid grid data" ∧
    toggleCellHandler 0 0 0 = ToggleOutcome.fault :=
  invalid_size_reported_except_toggle 0 [] cellsBlank 0 0 (by decide)

/-- C6: on the 6×6 pre-filled grid whose only empty cell is (0,1) the solver
rejects 0 (count rule) and accepts 1 — the checker never looks at the
middle-position window — so it fills the grid completely while creating the
run `1,1,1` in row 0: a fully filled solver output violating the
no-three-consecutive invariant, placed by the solver itself. -/
theorem solver_output_violates_run_invariant :
    (getCell gridG6 0 1).Value = none ∧
    isFull (solveBinairo gridG6) = true ∧
    (getCell (solveBinairo gridG6) 0 1).Value = some 1 ∧
    hasThreeRun (solveBinairo gridG6) = true := by
  decide

/-- C7: when the search finds no completion, solveBinairo still returns a
grid: exactly its input (the Go code undoes every tentative assignment on
the failure path), and that grid is necessarily not fully filled, which is
the only failure signal callers get. -/
theorem solveBinairo_failure_returns_input (g : Grid)
    (h : solveAux (List.length g * List.length g) g = none) :
    solveBinairo g = g ∧ isFull g = false := by
  constructor
  · unfold solveBinairo
    rw [h]
    rfl
  · rw [Bool.eq_false_iff]
    intro hf
    have h1 := firstEmpty_eq_none_of_isFull g hf
    have h2 := solveAux_of_no_empty (List.length g * List.length g) g h1
    rw [h] at h2
    exact Option.noConfusion h2

/-- C7 witness: the empty 1×1 grid has no valid completion (either value
breaks the count rule, since size/2 = 0), and solveBinairo returns it
unchanged and not full. -/
theorem solveBinairo_failure_returns_input_witness :
    solveBinairo (createGrid 1) = createGrid 1 ∧ isFull (createGrid 1) = false :=
  solveBinairo_failure_returns_input (createGrid 1) (by decide)

/-- C8: the solver is a pure function of the grid — the source references no
randomness, scans row-major and tries 0 before 1 — so equal inputs give equal
outputs, and solving the empty 4×4 grid yields the one canonical solution. -/
theorem solveBinairo_deterministic :
    (∀ g1 g2 : Grid, g1 = g2 → solveBinairo g1 = solveBinairo g2) ∧
    solveBinairo (createGrid 4) = canonical4 := by
  refine ⟨fun g1 g2 hg => hg ▸ rfl, ?_⟩
  decide

/-- C8 witness: two solves of the empty 4×4 grid coincide. -/
theorem solveBinairo_deterministic_witness :
    solveBinairo (createGrid 4) = solveBinairo (createGrid 4) :=
  solveBinairo_deterministic.1 (createGrid 4) (createGrid 4) rfl

/-- C9: on a cell whose value is in the puzzle domain, three applications of
the toggle step return it to its starting state (its value cycles
empty → 0 → 1 → empty when the cell is editable), and toggling a read-only
cell changes nothing. -/
theorem toggleCell_three_cycle (c : Cell)
    (h : c.Value = none ∨ c.Value = some 0 ∨ c.Value = some 1) :
    toggleCell (toggleCell (toggleCell c)) = c ∧
    (c.ReadOnly = true → toggleCell c = c) := by
  obtain ⟨v, r⟩ := c
  rcases h with h | h | h <;>
    (dsimp only at h; subst h; cases r <;> decide)

/-- C9 witness: an editable empty cell returns to empty after three toggles,
and the read-only implication holds vacuously for it. -/
theorem toggleCell_three_cycle_witness :
    toggleCell (toggleCell (toggleCell blankCell)) = blankCell ∧
    (blankCell.ReadOnly = true → toggleCell blankCell = blankCell) :=
  toggleCell_three_cycle blankCell (Or.inl rfl)

/-- C10: the toggle handler's unguarded `grid[row][col]` access is reachable:
with size 0 (also what a discarded parse error yields) every row/col faults,
and an in-range size still faults when row equals the size or the size is
negative — the operation faults instead of reporting an error. -/
theorem toggle_unguarded_indexing :
    (∀ row col : Int, toggleCellHandler row col 0 = ToggleOutcome.fault) ∧
    toggleCellHandler 4 0 4 = ToggleOutcome.fault ∧
    toggleCellHandler 0 0 (-2) = ToggleOutcome.fault := by
  refine ⟨fun row col => ?_, by decide, by decide⟩
  unfold toggleCellHandler
  have h0 : ¬ ((0 : Int) < 0) := by omega
  have h2 : ¬ (0 ≤ row ∧ row < (0 : Int) ∧ 0 ≤ col ∧ col < 0) := by omega
  rw [if_neg h0, if_neg h2]

end Binairo
